import Mathlib

/-!
Verification of the promptantic handler layer (`src/promptantic/handlers/*.py`).

Modelling conventions (shallow embedding):

* Each handler's `while True` loop body is embedded as a pure function of the
  raw line submitted for that iteration, returning a `LoopStep`:
  `.ret v` for a `return v`, `.raise e` for an exception leaving the body
  (whether raised directly or escaping a `try`), and `.again` for a body that
  falls off its end (which would re-enter the loop).  `prompt_async` is
  modelled as yielding the text the user finally submits; an "empty input" is
  the empty string, exactly the case the handlers test with `if not result`.
* Python exceptions are the inductive `PyError`; only their constructor
  (class) is ever observed by the theorems, the message payloads are
  representative.
* Python `str` values are Lean `String`s; all string manipulation is done on
  `List Char` with total, structurally recursive helpers so that every
  definition evaluates inside the kernel.
* Machine-level collaborators (filesystem, home directory lookup, compiled
  regular expressions supplied by the caller) are explicit parameters:
  a filesystem is a function `String → FsEntry`, the user database is a
  `PathEnv`, and a caller-supplied compiled pattern is a `String → Bool`.
-/

namespace Promptantic

/-- Python exception classes that appear in the handler layer.  Only the
constructor is meaningful to the theorems; messages are representative. -/
inductive PyError where
  | validationError (msg : String)
  | valueError (msg : String)
  | runtimeError (msg : String)
  | invalidOperation (msg : String)
  | zeroDivisionError
deriving DecidableEq, Repr

/-- Outcome of one execution of a `while True` loop body: `ret` for a
`return`, `raise` for an exception leaving the body, and `again` for a body
that falls off its end and would loop. -/
inductive LoopStep (ε α : Type) where
  | ret (v : α)
  | raise (e : PyError)
  | again
deriving DecidableEq, Repr

/-- True exactly when the step raises a `ValidationError` (promptantic's
recoverable invalid-input signal). -/
def LoopStep.isValidationError {ε α : Type} : LoopStep ε α → Bool
  | .raise (.validationError _) => true
  | _ => false

/-! ### Character list utilities (total stand-ins for the Python str methods) -/

/-- ASCII whitespace characters stripped by Python's `str.strip()` /
`int()` / `float()` (restricted to the ASCII range of our model). -/
def isWs (c : Char) : Bool :=
  c == ' ' || c == '\t' || c == '\n' || c == '\r' || c == '\x0b' || c == '\x0c'

/-- `str.strip()` on a character list. -/
def trimChars (cs : List Char) : List Char :=
  ((cs.dropWhile isWs).reverse.dropWhile isWs).reverse

/-- `str.lower()` (ASCII). -/
def lowerChars (cs : List Char) : List Char :=
  cs.map Char.toLower

def strOfChars (cs : List Char) : String := ⟨cs⟩

/-- Boolean "`pat` begins `cs`" test on character lists. -/
def beginsWith : List Char → List Char → Bool
  | [], _ => true
  | _ :: _, [] => false
  | p :: ps, c :: cs => p == c && beginsWith ps cs

/-- `str.replace(pat, "")`: delete every (left-to-right, non-overlapping)
occurrence of `pat`.  Fuel-driven so the recursion is structural. -/
def removeSubAux (pat : List Char) : Nat → List Char → List Char
  | _, [] => []
  | 0, cs => cs
  | fuel + 1, c :: cs =>
    if !pat.isEmpty && beginsWith pat (c :: cs) then
      removeSubAux pat fuel ((c :: cs).drop pat.length)
    else
      c :: removeSubAux pat fuel cs

def removeSub (pat : List Char) (cs : List Char) : List Char :=
  removeSubAux pat cs.length cs

/-! ### Python `int()` parsing

`int(s)` strips whitespace, accepts an optional sign, then a nonempty digit
run in which single underscores may appear strictly between digits. -/

/-- Every `'_'` in the list has a digit immediately before and after it
(`prev` is the preceding character). -/
def underscoresOkAux (prev : Char) : List Char → Bool
  | [] => true
  | c :: rest =>
    if c == '_' then
      match rest with
      | [] => false
      | d :: rest2 => prev.isDigit && d.isDigit && underscoresOkAux d rest2
    else
      underscoresOkAux c rest

def underscoresOk : List Char → Bool
  | [] => true
  | c :: rest => c != '_' && underscoresOkAux c rest

/-- The digit-run of a Python int literal (no sign): nonempty, digits and
underscores only, each underscore strictly between digits. -/
def validUnderscoredDigits (cs : List Char) : Bool :=
  !cs.isEmpty && cs.all (fun c => c.isDigit || c == '_') && underscoresOk cs

def digitVal (c : Char) : Nat := c.toNat - 48

def digitsToNat (cs : List Char) : Nat :=
  cs.foldl (fun acc c => 10 * acc + digitVal c) 0

def pyIntBody (cs : List Char) : Option Nat :=
  if validUnderscoredDigits cs then some (digitsToNat (cs.filter (· != '_'))) else none

/-- Python `int(s)` for base 10 (ASCII model): `some` value or `none` when a
`ValueError` would be raised. -/
def pyParseInt (s : String) : Option Int :=
  let cs := trimChars s.data
  match cs with
  | '+' :: rest => (pyIntBody rest).map (fun n => (n : Int))
  | '-' :: rest => (pyIntBody rest).map (fun n => -(n : Int))
  | _ => (pyIntBody cs).map (fun n => (n : Int))

/-- Python's `%` on integers (sign of the divisor): floor-division remainder. -/
def pyMod (a b : Int) : Int := Int.fmod a b

example : pyParseInt "36" = some 36 := by decide
example : pyParseInt " -1 " = some (-1) := by decide
example : pyParseInt "" = none := by decide
example : pyParseInt "1_0" = some 10 := by decide
example : pyParseInt "1__0" = none := by decide
example : pyParseInt "_1" = none := by decide
example : pyParseInt "+7" = some 7 := by decide
example : pyMod (-7) 5 = 3 := by decide

/-! ### A tiny continuation-passing matcher for the concrete regexes

The two builtin patterns of `special.py` (`EmailHandler._email_regex` and
`URLHandler._url_regex`) only use literals, character classes and bounded or
`+`/`*` repetition of character classes, plus one `+` over a composite label
expression.  A matcher in continuation-passing style covers exactly that.
A "continuation" is a predicate on the rest of the input. -/

/-- Kleene star over a character class: some initial run of characters
satisfying `p` is consumed, the continuation must accept the rest. -/
def starClass (p : Char → Bool) (k : List Char → Bool) (cs : List Char) : Bool :=
  (List.range (cs.length + 1)).any fun n => (cs.take n).all p && k (cs.drop n)

/-- `p+`: one or more characters of class `p`. -/
def plusClass (p : Char → Bool) (k : List Char → Bool) : List Char → Bool
  | [] => false
  | c :: rest => p c && starClass p k rest

/-- `p{lo,hi}`: between `lo` and `hi` characters of class `p`. -/
def repClass (p : Char → Bool) (lo hi : Nat) (k : List Char → Bool)
    (cs : List Char) : Bool :=
  (List.range (hi + 1)).any fun n =>
    decide (lo ≤ n) && decide (n ≤ cs.length) && (cs.take n).all p && k (cs.drop n)

/-- A single character of class `p`. -/
def charClass (p : Char → Bool) (k : List Char → Bool) : List Char → Bool
  | [] => false
  | c :: rest => p c && k rest

/-- A literal character. -/
def litChar (c : Char) (k : List Char → Bool) : List Char → Bool
  | [] => false
  | d :: rest => d == c && k rest

/-- A literal character sequence. -/
def litSeq : List Char → (List Char → Bool) → List Char → Bool
  | [], k, cs => k cs
  | _ :: _, _, [] => false
  | p :: ps, k, c :: cs => c == p && litSeq ps k cs

/-- `m+` for a composite sub-expression `m` that always consumes at least one
character; `fuel` bounds the number of repetitions (input length suffices). -/
def plusRE (m : (List Char → Bool) → List Char → Bool)
    (k : List Char → Bool) : Nat → List Char → Bool
  | 0, _ => false
  | fuel + 1, cs => m (fun rest => k rest || plusRE m k fuel rest) cs

/-! ### The builtin email and URL patterns -/

def nonAt (c : Char) : Bool := c != '@'

/-- `EmailHandler._email_regex = re.compile(r"[^@]+@[^@]+\.[^@]+")` used via
`re.match`, i.e. the pattern must match some prefix of the string. -/
def emailRegexMatch (s : String) : Bool :=
  plusClass nonAt
    (litChar '@' (plusClass nonAt (litChar '.' (plusClass nonAt fun _ => true))))
    s.data

example : emailRegexMatch "a@b.c" = true := by decide
example : emailRegexMatch "ada@lovelace.org" = true := by decide
example : emailRegexMatch "nope" = false := by decide
example : emailRegexMatch "a@b" = false := by decide
example : emailRegexMatch "@b.c" = false := by decide
example : emailRegexMatch "a@b.c trailing junk accepted" = true := by decide

def lowAlnum (c : Char) : Bool := c.isLower || c.isDigit

def lowAlnumDash (c : Char) : Bool := lowAlnum c || c == '-'

def nonSpace (c : Char) : Bool := !c.isWhitespace

/-- One domain label `[A-Z0-9](?:[A-Z0-9-]{0,61}[A-Z0-9])?\.` (lower-cased,
since the source compiles with `re.IGNORECASE` and we lower the input). -/
def urlLabel (k : List Char → Bool) : List Char → Bool :=
  charClass lowAlnum fun cs =>
    litChar '.' k cs ||
      repClass lowAlnumDash 0 61 (charClass lowAlnum (litChar '.' k)) cs

/-- `\d{1,3}` -/
def d13 (k : List Char → Bool) : List Char → Bool :=
  repClass Char.isDigit 1 3 k

/-- `URLHandler._url_regex`, compiled with `re.IGNORECASE`, matched with
`re.match`; since the pattern is anchored `^...$` this is a whole-string
match (the `$` also accepts one trailing newline). -/
def urlRegexMatch (s : String) : Bool :=
  let cs := lowerChars s.data
  let fuel := cs.length + 1
  let endK : List Char → Bool := fun r => r == [] || r == ['\n']
  let tail : List Char → Bool := fun r =>
    endK r || litChar '/' endK r ||
      charClass (fun c => c == '/' || c == '?') (plusClass nonSpace endK) r
  let afterHost : List Char → Bool := fun r =>
    tail r || litChar ':' (plusClass Char.isDigit tail) r
  let domain : List Char → Bool :=
    plusRE urlLabel
      (repClass Char.isLower 2 6 fun r => afterHost r || litChar '.' afterHost r)
      fuel
  let ip : List Char → Bool :=
    d13 (litChar '.' (d13 (litChar '.' (d13 (litChar '.' (d13 afterHost))))))
  let host : List Char → Bool := fun r =>
    domain r || litSeq "localhost".data afterHost r || ip r
  litSeq "http".data
    (fun r => litSeq "://".data host r || litChar 's' (litSeq "://".data host) r)
    cs

example : urlRegexMatch "http://localhost" = true := by decide
example : urlRegexMatch "https://localhost:8080/x" = true := by decide
example : urlRegexMatch "nope" = false := by decide
example : urlRegexMatch "http://a.bc" = true := by decide
example : urlRegexMatch "HTTP://LOCALHOST" = true := by decide
example : urlRegexMatch "http://1.2.3.4" = true := by decide
example : urlRegexMatch "http://localhost junk" = false := by decide

/-! ### Python `float()` and `Decimal()` string acceptance

The handlers only observe whether the conversion raises, so the embeddings
are acceptance tests over the numeric-literal grammar: optional sign, then
`digits [. digits*] | . digits` with optional exponent, or the infinity/NaN
words; underscores are allowed strictly between digits. -/

def removeUnderscores (cs : List Char) : List Char :=
  cs.filter (· != '_')

def signChar (c : Char) : Bool := c == '+' || c == '-'

/-- Mantissa-and-exponent body (no sign, no underscores, already lowered):
`(\d+(\.\d*)?|\.\d+)(e[+-]?\d+)?` anchored at both ends. -/
def numericBody (cs : List Char) : Bool :=
  let endK : List Char → Bool := fun r => r.isEmpty
  let expK : List Char → Bool := fun r =>
    endK r ||
      litChar 'e'
        (fun r2 =>
          plusClass Char.isDigit endK r2 ||
            charClass signChar (plusClass Char.isDigit endK) r2)
        r
  plusClass Char.isDigit
    (fun r => expK r || litChar '.' (starClass Char.isDigit expK) r) cs ||
    litChar '.' (plusClass Char.isDigit expK) cs

/-- Strips the optional sign. -/
def dropSign (cs : List Char) : List Char :=
  match cs with
  | c :: rest => if signChar c then rest else cs
  | [] => []

/-- Does `float(s)` succeed?  (`strip`, optional sign, numeric body or
`inf`/`infinity`/`nan`, case-insensitive, underscores between digits.) -/
def pyFloatAccepts (s : String) : Bool :=
  let t := dropSign (lowerChars (trimChars s.data))
  t == "inf".data || t == "infinity".data || t == "nan".data ||
    (underscoresOk t && numericBody (removeUnderscores t))

/-- Does `Decimal(s)` succeed?  Same numeric grammar, plus NaN diagnostics
(`s?nan\d*`). -/
def pyDecimalAccepts (s : String) : Bool :=
  let t := dropSign (lowerChars (trimChars s.data))
  t == "inf".data || t == "infinity".data ||
    litSeq "nan".data (fun r => r.all Char.isDigit) t ||
    litSeq "snan".data (fun r => r.all Char.isDigit) t ||
    (underscoresOk t && numericBody (removeUnderscores t))

example : pyFloatAccepts "1.5" = true := by decide
example : pyFloatAccepts "-3" = true := by decide
example : pyFloatAccepts "1e5" = true := by decide
example : pyFloatAccepts "" = false := by decide
example : pyFloatAccepts "." = false := by decide
example : pyFloatAccepts "abc" = false := by decide
example : pyDecimalAccepts "1.50" = true := by decide
example : pyDecimalAccepts "abc" = false := by decide
example : pyDecimalAccepts "" = false := by decide
example : pyDecimalAccepts "NaN" = true := by decide

/-! ### Python `uuid.UUID(hex)` and its string form

CPython deletes every `"urn:"` and `"uuid:"` substring, strips `{`/`}` from
both ends, deletes every hyphen, and then requires exactly 32 hex digits.
A UUID value is its 128-bit integer. -/

def isBrace (c : Char) : Bool := c == '{' || c == '}'

def stripBraces (cs : List Char) : List Char :=
  ((cs.dropWhile isBrace).reverse.dropWhile isBrace).reverse

def isHexDigit (c : Char) : Bool :=
  c.isDigit || ('a' ≤ c && c ≤ 'f') || ('A' ≤ c && c ≤ 'F')

def hexVal (c : Char) : Nat :=
  if c.isDigit then c.toNat - 48
  else if 'a' ≤ c && c ≤ 'f' then c.toNat - 87
  else c.toNat - 55

def hexListVal (cs : List Char) : Nat :=
  cs.foldl (fun acc c => 16 * acc + hexVal c) 0

/-- `UUID(s)`: `some` 128-bit value, `none` when `ValueError` is raised. -/
def pyParseUUID (s : String) : Option Nat :=
  let cs :=
    (stripBraces (removeSub "uuid:".data (removeSub "urn:".data s.data))).filter
      (· != '-')
  if cs.length == 32 && cs.all isHexDigit then some (hexListVal cs) else none

def hexChar (n : Nat) : Char :=
  if n < 10 then Char.ofNat (48 + n) else Char.ofNat (87 + n)

/-- `k` lowercase hex digits of `v`, most significant first. -/
def toHexDigits : Nat → Nat → List Char
  | 0, _ => []
  | k + 1, v => toHexDigits k (v / 16) ++ [hexChar (v % 16)]

/-- `str(UUID(...))`: 8-4-4-4-12 lowercase hex groups. -/
def uuidToString (n : Nat) : String :=
  let ds := toHexDigits 32 n
  strOfChars
    (ds.take 8 ++ '-' :: ((ds.drop 8).take 4) ++ '-' :: ((ds.drop 12).take 4) ++
      '-' :: ((ds.drop 16).take 4) ++ '-' :: (ds.drop 20))

example : pyParseUUID "123e4567-e89b-12d3-a456-426614174000" =
    some 0x123e4567e89b12d3a456426614174000 := by decide
example : pyParseUUID "xyz" = none := by decide
example : pyParseUUID "" = none := by decide
example : uuidToString 0x123e4567e89b12d3a456426614174000 =
    "123e4567-e89b-12d3-a456-426614174000" := by decide

/-! ### The `pathlib` model

A POSIX path is its string.  The process environment supplies the home
directory, the working directory and the user database; the filesystem is a
function from resolved path to entry kind (our model has no symlinks, so
`Path.resolve` is making-absolute plus `.`/`..` normalisation). -/

structure PathEnv where
  home : String
  cwd : String
  users : List (String × String)
deriving Repr

inductive FsEntry where
  | file
  | dir
  | missing
deriving DecidableEq, Repr

/-- `Path(p).expanduser()`.  `~` and `~/...` expand to the home directory;
`~user...` expands via the user database and, exactly as in `pathlib`,
raises `RuntimeError` when the user cannot be resolved. -/
def pathExpanduser (env : PathEnv) (p : String) : Except PyError String :=
  if p == "~" then .ok env.home
  else if beginsWith "~/".data p.data then .ok (env.home ++ p.drop 1)
  else if beginsWith "~".data p.data then
    let rest := p.drop 1
    let name := strOfChars (rest.data.takeWhile (· != '/'))
    match env.users.lookup name with
    | some h => .ok (h ++ rest.drop name.length)
    | none => .error (.runtimeError "Could not determine home directory")
  else .ok p

/-- Split a character list on `'/'`. -/
def splitSlashAux : List Char → List Char → List (List Char)
  | [], acc => [acc.reverse]
  | '/' :: rest, acc => acc.reverse :: splitSlashAux rest []
  | c :: rest, acc => splitSlashAux rest (c :: acc)

def splitSlash (cs : List Char) : List (List Char) :=
  splitSlashAux cs []

/-- Normalise an absolute path: drop empty and `.` segments, let `..` pop. -/
def normalizeAbs (cs : List Char) : List Char :=
  let parts := (splitSlash cs).filter fun s => !s.isEmpty && s != ['.']
  let stack := parts.foldl
    (fun acc part => if part == "..".data then acc.dropLast else acc ++ [part])
    ([] : List (List Char))
  '/' :: (stack.foldl (fun acc p => if acc.isEmpty then p else acc ++ '/' :: p) [])

/-- `Path(p).resolve()` in a symlink-free filesystem: absolute w.r.t. the
working directory, normalised. -/
def pyResolve (env : PathEnv) (p : String) : String :=
  let cs := if beginsWith "/".data p.data then p.data
            else env.cwd.data ++ '/' :: p.data
  strOfChars (normalizeAbs cs)

example :
    pathExpanduser ⟨"/home/user", "/work", []⟩ "~/data" = .ok "/home/user/data" :=
  rfl
example :
    pathExpanduser ⟨"/home/user", "/work", []⟩ "~ghost" =
      .error (.runtimeError "Could not determine home directory") :=
  rfl
example : pyResolve ⟨"/home/user", "/work", []⟩ "a/../b/./c" = "/work/b/c" := by decide
example : pyResolve ⟨"/home/user", "/work", []⟩ "/tmp//x" = "/tmp/x" := by decide

/-! ### Defaults as dynamic values and the `format_default` methods

`format_default` receives `Any`; `PyVal` covers the Python values the
handler layer passes around.  A `Decimal` is represented by its coefficient
string (only the raise/return distinction is observed by the claims), a
`UUID` by its 128-bit integer, a `Path` by its string. -/

inductive PyVal where
  | pstr (s : String)
  | pint (n : Int)
  | pdec (s : String)
  | puuid (n : Nat)
  | ppath (s : String)
deriving DecidableEq, Repr

/-- Python `str()` of a `PyVal`. -/
def pyStr : PyVal → String
  | .pstr s => s
  | .pint n => toString n
  | .pdec s => s
  | .puuid n => uuidToString n
  | .ppath s => s

/-- `UUIDHandler.format_default` (special.py:121-128): `None` renders as no
default; a `str` default is first converted with `UUID(default)` — which
raises `ValueError` for a malformed string — and any other value is rendered
with `str`. -/
def uuidFormatDefault : Option PyVal → Except PyError (Option String)
  | none => .ok none
  | some (.pstr s) =>
    match pyParseUUID s with
    | some n => .ok (some (uuidToString n))
    | none => .error (.valueError "badly formed hexadecimal UUID string")
  | some v => .ok (some (pyStr v))

/-- `DecimalHandler.format_default` (primitives.py:122-129): a non-`Decimal`
default is converted with `Decimal(str(default))`, which raises
`InvalidOperation` (an `ArithmeticError`) for a non-numeric string. -/
def decimalFormatDefault : Option PyVal → Except PyError (Option String)
  | none => .ok none
  | some (.pdec s) => .ok (some s)
  | some v =>
    if pyDecimalAccepts (pyStr v) then .ok (some (pyStr v))
    else .error (.invalidOperation "invalid decimal literal")

/-- `PathHandler.format_default` (special.py:62-68): a `str` or `Path`
default is rendered as `str(Path(default).expanduser())` — `expanduser`
raises `RuntimeError` for an unresolvable `~user` — and any other value with
`str`. -/
def pathFormatDefault (env : PathEnv) :
    Option PyVal → Except PyError (Option String)
  | none => .ok none
  | some (.pstr s) => (pathExpanduser env s).map some
  | some (.ppath s) => (pathExpanduser env s).map some
  | some v => .ok (some (pyStr v))

/-! ### Handler loop bodies

`<name>HandleStep` is the body of the corresponding handler's `while True`
loop as a function of the line submitted in that iteration (`raw`).
Handlers that do work before entering the loop get an additional wrapper.  -/

/-- `StrHandler.handle` (primitives.py:19-43): no loop, no coercion — the
submitted line is returned as is (the rendered default only pre-fills the
prompt buffer and is not substituted for an empty submission). -/
def strHandle (raw : String) (default : Option String) : String :=
  raw

/-- `IntHandler.handle` loop body (primitives.py:58-74). -/
def intHandleStep (raw : String) (default : Option Int) : LoopStep PyError Int :=
  if (raw == "") && default.isSome then .ret (default.getD 0)
  else
    match pyParseInt raw with
    | some v => .ret v
    | none => .raise (.validationError "Please enter a valid integer: invalid literal")

/-- `FloatHandler.handle` loop body (primitives.py:96-116).  A float value is
represented by the accepted literal (no claim observes float arithmetic);
the default is the float it was given. -/
def floatHandleStep (raw : String) (default : Option String) :
    LoopStep PyError String :=
  if (raw == "") && default.isSome then .ret (default.getD "")
  else if pyFloatAccepts raw then .ret raw
  else .raise (.validationError "Please enter a valid float: could not convert")

/-- `DecimalHandler.handle` loop body (primitives.py:140-163).  The body
first calls `format_default` (inside the `try`, so an `InvalidOperation`
from a bad default becomes a `ValidationError`), then substitutes the
default for an empty submission (`Decimal(str(default))` for non-`Decimal`
defaults) or converts the submission. -/
def decimalHandleStep (raw : String) (default : Option PyVal) :
    LoopStep PyError String :=
  match decimalFormatDefault default with
  | .error _ => .raise (.validationError "Please enter a valid decimal: invalid literal")
  | .ok _ =>
    if (raw == "") && default.isSome then
      match default with
      | some (.pdec s) => .ret s
      | some v =>
        if pyDecimalAccepts (pyStr v) then .ret (pyStr v)
        else .raise (.validationError "Please enter a valid decimal: invalid literal")
      | none => .ret ""
    else if pyDecimalAccepts raw then .ret raw
    else .raise (.validationError "Please enter a valid decimal: invalid literal")

def boolTrueInputs : List String := ["y", "yes", "true", "1"]

def boolFalseInputs : List String := ["n", "no", "false", "0"]

/-- `result.lower().strip()` as in `BoolHandler.handle`. -/
def pyLowerStrip (s : String) : String :=
  strOfChars (trimChars (lowerChars s.data))

/-- `BoolHandler.handle` loop body (primitives.py:182-204). -/
def boolHandleStep (raw : String) (default : Option Bool) :
    LoopStep PyError Bool :=
  if (raw == "") && default.isSome then .ret (default.getD false)
  else
    let r := pyLowerStrip raw
    if r ∈ boolTrueInputs then .ret true
    else if r ∈ boolFalseInputs then .ret false
    else .raise (.validationError "Please enter 'y' or 'n'")

/-- Constraint attributes read off the field type by
`ConstrainedStrHandler.handle`.  A compiled `pattern` is abstracted as the
predicate "`re.match(pattern, ·)` succeeds". -/
structure StrConstraints where
  minLength : Option Nat
  maxLength : Option Nat
  pattern : Option (String → Bool)

/-- `ConstrainedStrHandler.handle` loop body (constrained.py:43-75); this
handler has no default parameter. -/
def constrainedStrStep (c : StrConstraints) (raw : String) :
    LoopStep PyError String :=
  if c.minLength.any fun m => decide (raw.length < m) then
    .raise (.validationError "Validation failed: String too short")
  else if c.maxLength.any fun m => decide (raw.length > m) then
    .raise (.validationError "Validation failed: String too long")
  else if c.pattern.any fun p => !p raw then
    .raise (.validationError "Validation failed: String does not match pattern")
  else .ret raw

/-- Constraint attributes read off the field type by
`ConstrainedIntHandler.handle`. -/
structure IntConstraints where
  gt : Option Int
  ge : Option Int
  lt : Option Int
  le : Option Int
  multipleOf : Option Int
deriving Repr

/-- The constraint cascade of `ConstrainedIntHandler.handle`
(constrained.py:125-144) applied to the parsed value.  Evaluating
`value % 0` raises `ZeroDivisionError`, which `except ValueError` does not
catch. -/
def constrainedIntCheck (c : IntConstraints) (v : Int) : LoopStep PyError Int :=
  if c.gt.any fun g => decide (v ≤ g) then
    .raise (.validationError "Validation failed: Must be greater than")
  else if c.ge.any fun g => decide (v < g) then
    .raise (.validationError "Validation failed: Must be greater than or equal to")
  else if c.lt.any fun g => decide (g ≤ v) then
    .raise (.validationError "Validation failed: Must be less than")
  else if c.le.any fun g => decide (g < v) then
    .raise (.validationError "Validation failed: Must be less than or equal to")
  else
    match c.multipleOf with
    | some m =>
      if m == 0 then .raise .zeroDivisionError
      else if pyMod v m != 0 then
        .raise (.validationError "Validation failed: Must be multiple of")
      else .ret v
    | none => .ret v

/-- `ConstrainedIntHandler.handle` loop body (constrained.py:117-144). -/
def constrainedIntStep (c : IntConstraints) (raw : String) :
    LoopStep PyError Int :=
  match pyParseInt raw with
  | none => .raise (.validationError "Validation failed: invalid literal")
  | some v => constrainedIntCheck c v

/-- Modelled from the spec: `create_field_prompt`
(`promptantic.ui.formatting`, not under src/) builds the text shown for a
field from its name, its description and the display form of the default
("The resolver also asks the chosen Handler to render the default into a
display string").  The exact layout is irrelevant to the claims; what
matters is that the default display it receives is all it shows of the
default. -/
def createFieldPrompt (name : String) (description : Option String)
    (default : Option String) : String :=
  name ++
    (match description with
     | some d => " (" ++ d ++ ")"
     | none => "") ++
    (match default with
     | some d => " [" ++ d ++ "]"
     | none => "")

/-- `SecretStrHandler.handle` (special.py:25-52): no loop.  Returns the
prompt text shown to the user together with the resulting secret (a
`SecretStr` is its string).  The default is displayed as the fixed
placeholder, never as its value. -/
def secretStrHandle (fieldName : String) (description : Option String)
    (raw : String) (default : Option String) : String × String :=
  let placeholder := if default.isSome then some "********" else none
  let prompt := createFieldPrompt fieldName description placeholder
  let value := if (raw == "") && default.isSome then default.getD "" else raw
  (prompt, value)

/-- Extra options read from `field_info.json_schema_extra` by
`PathHandler.handle`. -/
structure PathExtra where
  mustExist : Bool
  fileOnly : Bool
  dirOnly : Bool
deriving DecidableEq, Repr

/-- The `try` block of `PathHandler.handle`'s loop body
(special.py:85-110): empty submission with a default short-circuits to
`Path(default).expanduser().resolve()`; otherwise the submission is
expanded, resolved and checked against the `must_exist` / `file_only` /
`dir_only` options. -/
def pathHandleInner (env : PathEnv) (fs : String → FsEntry) (extra : PathExtra)
    (raw : String) (default : Option String) : Except PyError String :=
  if (raw == "") && default.isSome then do
    let e ← pathExpanduser env (default.getD "")
    return pyResolve env e
  else do
    let e ← pathExpanduser env raw
    let path := pyResolve env e
    if extra.mustExist && (fs path == .missing) then
      throw (.validationError ("Path does not exist: " ++ path))
    else if extra.fileOnly && !(fs path == .file) then
      throw (.validationError ("Not a file: " ++ path))
    else if extra.dirOnly && !(fs path == .dir) then
      throw (.validationError ("Not a directory: " ++ path))
    else
      return path

/-- `PathHandler.handle` loop body (special.py:84-115): any exception from
the `try` block — including the inner `ValidationError`s — is re-raised as
`ValidationError("Invalid path: ...")`. -/
def pathHandleStep (env : PathEnv) (fs : String → FsEntry) (extra : PathExtra)
    (raw : String) (default : Option String) : LoopStep PyError String :=
  match pathHandleInner env fs extra raw default with
  | .ok p => .ret p
  | .error _ => .raise (.validationError "Invalid path: see cause")

/-- `PathHandler.handle` (special.py:70-115): `format_default` runs before
the loop, so a `RuntimeError` from `expanduser` on the default escapes the
handler unwrapped. -/
def pathHandle (env : PathEnv) (fs : String → FsEntry) (extra : PathExtra)
    (raw : String) (default : Option String) : LoopStep PyError String :=
  match default with
  | some d =>
    match pathExpanduser env d with
    | .error e => .raise e
    | .ok _ => pathHandleStep env fs extra raw default
  | none => pathHandleStep env fs extra raw default

/-- The `default` parameter of `UUIDHandler.handle` is a `UUID` or a `str`. -/
inductive UuidDefault where
  | uuidv (n : Nat)
  | strv (s : String)
deriving DecidableEq, Repr

/-- `UUIDHandler.handle` loop body (special.py:142-163): empty submission
returns the default (parsing it first when it is a string); otherwise the
submission is parsed, a `ValueError` becoming `ValidationError`. -/
def uuidHandleStep (raw : String) (default : Option UuidDefault) :
    LoopStep PyError Nat :=
  if (raw == "") && default.isSome then
    match default with
    | some (.strv s) =>
      match pyParseUUID s with
      | some n => .ret n
      | none => .raise (.validationError "Invalid UUID: badly formed")
    | some (.uuidv n) => .ret n
    | none => .raise (.validationError "unreachable")
  else
    match pyParseUUID raw with
    | some n => .ret n
    | none => .raise (.validationError "Invalid UUID: badly formed")

/-- `UUIDHandler.handle` (special.py:130-163): `format_default` runs before
the loop, so `UUID(default)` on a malformed string default raises a plain
`ValueError` before any prompt. -/
def uuidHandle (raw : String) (default : Option UuidDefault) :
    LoopStep PyError Nat :=
  match default with
  | some (.strv s) =>
    match pyParseUUID s with
    | none => .raise (.valueError "badly formed hexadecimal UUID string")
    | some _ => uuidHandleStep raw default
  | _ => uuidHandleStep raw default

/-- `EmailHandler.handle` loop body (special.py:188-209), parameterised by
the compiled pattern in use (`regex`).  An empty submission returns the
default only after validating it against the pattern. -/
def emailHandleStep (regex : String → Bool) (raw : String)
    (default : Option String) : LoopStep PyError String :=
  if (raw == "") && default.isSome then
    if regex (default.getD "") then .ret (default.getD "")
    else .raise (.validationError ("Default email is invalid: " ++ default.getD ""))
  else if regex raw then .ret raw
  else .raise (.validationError "Invalid email address format")

/-- `EmailHandler.handle` (special.py:171-209): the pattern is the custom
`email_pattern` from the field extras when supplied, else the builtin. -/
def emailHandle (customPattern : Option (String → Bool)) (raw : String)
    (default : Option String) : LoopStep PyError String :=
  emailHandleStep (customPattern.getD emailRegexMatch) raw default

/-- `URLHandler.handle` loop body (special.py:242-263); same shape as the
email handler with the URL messages. -/
def urlHandleStep (regex : String → Bool) (raw : String)
    (default : Option String) : LoopStep PyError String :=
  if (raw == "") && default.isSome then
    if regex (default.getD "") then .ret (default.getD "")
    else .raise (.validationError ("Default URL is invalid: " ++ default.getD ""))
  else if regex raw then .ret raw
  else .raise (.validationError "Invalid URL format")

/-- `URLHandler.handle` (special.py:225-263). -/
def urlHandle (customPattern : Option (String → Bool)) (raw : String)
    (default : Option String) : LoopStep PyError String :=
  urlHandleStep (customPattern.getD urlRegexMatch) raw default

/-- `ImportStringHandler.handle` loop body (special.py:296-322),
parameterised by the validation function extracted from the Annotated type
(`some msg` models it raising `ValueError(msg)`). -/
def importStringStep (validator : String → Option String) (raw : String)
    (default : Option String) : LoopStep PyError String :=
  if (raw == "") && default.isSome then
    match validator (default.getD "") with
    | some msg => .raise (.validationError ("Default import path is invalid: " ++ msg))
    | none => .ret (default.getD "")
  else
    match validator raw with
    | some msg => .raise (.validationError ("Invalid import path: " ++ msg))
    | none => .ret raw

/-- Spec-side condition (C6's words): the parsed value `v` satisfies
`v > gt`, `v >= ge`, `v < lt`, `v <= le` and `v % multiple_of == 0` for each
constraint that is set. -/
def specIntConstraintsOk (c : IntConstraints) (v : Int) : Bool :=
  (c.gt.all fun g => decide (g < v)) &&
  (c.ge.all fun g => decide (g ≤ v)) &&
  (c.lt.all fun g => decide (v < g)) &&
  (c.le.all fun g => decide (v ≤ g)) &&
  (c.multipleOf.all fun m => pyMod v m == 0)

/-! ### Helper lemmas -/

theorem constrainedIntCheck_ret_iff (c : IntConstraints) (v : Int)
    (hm : c.multipleOf ≠ some 0) :
    constrainedIntCheck c v = .ret v ↔ specIntConstraintsOk c v = true := by
  obtain ⟨gt, ge, lt, le, mo⟩ := c
  cases gt <;> cases ge <;> cases lt <;> cases le <;> cases mo <;>
    simp_all [constrainedIntCheck, specIntConstraintsOk, Option.any, Option.all] <;>
    split_ifs <;>
    simp_all [bne_iff_ne, beq_iff_eq, not_le, not_lt]

theorem constrainedIntCheck_cases (c : IntConstraints) (v : Int)
    (hm : c.multipleOf ≠ some 0) :
    constrainedIntCheck c v = .ret v ∨
      (constrainedIntCheck c v).isValidationError = true := by
  obtain ⟨gt, ge, lt, le, mo⟩ := c
  cases gt <;> cases ge <;> cases lt <;> cases le <;> cases mo <;>
    simp_all [constrainedIntCheck, LoopStep.isValidationError, Option.any] <;>
    split_ifs <;> simp_all [LoopStep.isValidationError]

/-- With an empty submission and a default whose expansion succeeds,
`PathHandler.handle` returns the expanded and resolved default, whatever the
filesystem and the extra options say. -/
theorem pathHandle_empty_default (env : PathEnv) (fs : String → FsEntry)
    (extra : PathExtra) (d p : String) (h : pathExpanduser env d = .ok p) :
    pathHandle env fs extra "" (some d) = .ret (pyResolve env p) := by
  simp [pathHandle, pathHandleStep, pathHandleInner, h, Except.bind]

/-! ### Claim theorems -/

/-- C1, counterexample: with home `/home/user` and cwd `/work`, a path field
with declared default `"~/data"` and empty input yields
`/home/user/data`, not the default value `"~/data"` — the default is not
returned "unchanged in type and value". -/
theorem default_roundtrip_counterexample :
    pathHandle ⟨"/home/user", "/work", []⟩ (fun _ => FsEntry.dir)
        ⟨false, false, false⟩ "" (some "~/data") = .ret "/home/user/data" ∧
      ("/home/user/data" : String) ≠ "~/data" :=
  ⟨by decide, by decide⟩

/-- C1, amended: on empty input `IntHandler.handle` returns the declared
default itself, and so does `UUIDHandler.handle` when the default is already
a `UUID`; `PathHandler.handle` instead returns
`Path(default).expanduser().resolve()`, which need not equal the default;
`StrHandler.handle` returns the submitted empty string. -/
theorem default_roundtrip_amended :
    (∀ d : Int, intHandleStep "" (some d) = .ret d) ∧
    (∀ n : Nat, uuidHandle "" (some (.uuidv n)) = .ret n) ∧
    (∀ (env : PathEnv) (fs : String → FsEntry) (extra : PathExtra) (d p : String),
      pathExpanduser env d = .ok p →
      pathHandle env fs extra "" (some d) = .ret (pyResolve env p)) ∧
    (∀ d : Option String, strHandle "" d = "") := by
  refine ⟨fun d => rfl, fun n => rfl, ?_, fun d => rfl⟩
  intro env fs extra d p h
  exact pathHandle_empty_default env fs extra d p h

/-- C1, witness for the amended theorem: concrete instantiation of the
path conjunct with home `/h`, cwd `/c` and default `"~/f"`. -/
theorem default_roundtrip_amended_witness :
    pathHandle ⟨"/h", "/c", []⟩ (fun _ => FsEntry.missing) ⟨true, false, false⟩
      "" (some "~/f") = .ret "/h/f" :=
  default_roundtrip_amended.2.2.1 ⟨"/h", "/c", []⟩ (fun _ => FsEntry.missing)
    ⟨true, false, false⟩ "~/f" "/h/f" rfl

/-- C5: for a secret field the prompt display never depends on the secret
default's value — any two present defaults produce the identical prompt,
namely the one rendering the fixed placeholder `"********"`. -/
theorem secret_default_display_noninterference :
    ∀ (name : String) (desc : Option String) (raw : String) (d1 d2 : String),
      d1 ≠ d2 →
      (secretStrHandle name desc raw (some d1)).1 =
          (secretStrHandle name desc raw (some d2)).1 ∧
        (secretStrHandle name desc raw (some d1)).1 =
          createFieldPrompt name desc (some "********") := by
  intro name desc raw d1 d2 _
  exact ⟨rfl, rfl⟩

/-- C5, witness: two concrete distinct secrets display identically. -/
theorem secret_default_display_noninterference_witness :
    (secretStrHandle "password" none "" (some "hunter2")).1 =
        (secretStrHandle "password" none "" (some "tops3cret")).1 ∧
      (secretStrHandle "password" none "" (some "hunter2")).1 =
        createFieldPrompt "password" none (some "********") :=
  secret_default_display_noninterference "password" none "" "hunter2" "tops3cret"
    (by decide)

/-- C7: with no default, empty input raises `ValidationError` in
`IntHandler`, `FloatHandler` and `DecimalHandler`, while `StrHandler`
returns the empty string. -/
theorem empty_input_no_default :
    (intHandleStep "" none).isValidationError = true ∧
    (floatHandleStep "" none).isValidationError = true ∧
    (decimalHandleStep "" none).isValidationError = true ∧
    ∀ d : Option String, strHandle "" d = "" :=
  ⟨by decide, by decide, by decide, fun _ => rfl⟩

/-- C9: on empty input with a default present, `PathHandler.handle` is
independent of the filesystem and of the `must_exist` / `file_only` /
`dir_only` options, and returns `Path(default).expanduser().resolve()`. -/
theorem path_default_skips_checks :
    ∀ (env : PathEnv) (fs fs2 : String → FsEntry) (extra extra2 : PathExtra)
      (d : String),
      pathHandle env fs extra "" (some d) = pathHandle env fs2 extra2 "" (some d) ∧
        ∀ p, pathExpanduser env d = .ok p →
          pathHandle env fs extra "" (some d) = .ret (pyResolve env p) := by
  intro env fs fs2 extra extra2 d
  constructor
  · cases h : pathExpanduser env d with
    | error e => simp only [pathHandle, h]
    | ok q =>
      rw [pathHandle_empty_default env fs extra d q h,
        pathHandle_empty_default env fs2 extra2 d q h]
  · intro p h
    exact pathHandle_empty_default env fs extra d p h

/-- C9, witness: a default `~/cfg` under a filesystem where nothing exists
and with all three checks switched on still yields the resolved default. -/
theorem path_default_skips_checks_witness :
    pathHandle ⟨"/root", "/tmp", []⟩ (fun _ => FsEntry.missing)
        ⟨true, true, true⟩ "" (some "~/cfg") =
      pathHandle ⟨"/root", "/tmp", []⟩ (fun _ => FsEntry.dir)
        ⟨false, false, false⟩ "" (some "~/cfg") ∧
      pathHandle ⟨"/root", "/tmp", []⟩ (fun _ => FsEntry.missing)
        ⟨true, true, true⟩ "" (some "~/cfg") = .ret "/root/cfg" :=
  ⟨(path_default_skips_checks ⟨"/root", "/tmp", []⟩ (fun _ => FsEntry.missing)
      (fun _ => FsEntry.dir) ⟨true, true, true⟩ ⟨false, false, false⟩ "~/cfg").1,
    (path_default_skips_checks ⟨"/root", "/tmp", []⟩ (fun _ => FsEntry.missing)
      (fun _ => FsEntry.dir) ⟨true, true, true⟩ ⟨false, false, false⟩ "~/cfg").2
      "/root/cfg" rfl⟩

/-- C2: every `while True` loop body in the handlers terminates on its first
iteration by returning or raising — no body path re-enters the loop
(`.again` is unreachable for every raw input, default, constraint set,
pattern, filesystem and validator). -/
theorem single_round :
    (∀ raw (d : Option Int), intHandleStep raw d ≠ .again) ∧
    (∀ raw (d : Option String), floatHandleStep raw d ≠ .again) ∧
    (∀ raw (d : Option PyVal), decimalHandleStep raw d ≠ .again) ∧
    (∀ raw (d : Option Bool), boolHandleStep raw d ≠ .again) ∧
    (∀ (c : StrConstraints) raw, constrainedStrStep c raw ≠ .again) ∧
    (∀ (c : IntConstraints) raw, constrainedIntStep c raw ≠ .again) ∧
    (∀ (env : PathEnv) (fs : String → FsEntry) (extra : PathExtra) raw
      (d : Option String), pathHandleStep env fs extra raw d ≠ .again) ∧
    (∀ raw (d : Option UuidDefault), uuidHandleStep raw d ≠ .again) ∧
    (∀ (rx : String → Bool) raw (d : Option String),
      emailHandleStep rx raw d ≠ .again) ∧
    (∀ (rx : String → Bool) raw (d : Option String),
      urlHandleStep rx raw d ≠ .again) ∧
    (∀ (validator : String → Option String) raw (d : Option String),
      importStringStep validator raw d ≠ .again) := by
  refine ⟨?_, ?_, ?_, ?_, ?_, ?_, ?_, ?_, ?_, ?_, ?_⟩ <;> intros <;>
    simp only [intHandleStep, floatHandleStep, decimalHandleStep,
      boolHandleStep, constrainedStrStep, constrainedIntStep,
      constrainedIntCheck, pathHandleStep, uuidHandleStep, emailHandleStep,
      urlHandleStep, importStringStep] <;>
    (repeat' split) <;> simp

/-- C3: a coercion failure (non-numeric text to `IntHandler`), a constraint
failure (out-of-range value to `ConstrainedIntHandler`) and a nonexistent
path under `must_exist` in `PathHandler` are all raised as
`ValidationError`, never as any other exception type. -/
theorem invalid_input_validation_error :
    (∀ raw (d : Option Int), pyParseInt raw = none →
      ((raw == "") && d.isSome) = false →
      (intHandleStep raw d).isValidationError = true) ∧
    (∀ (c : IntConstraints) raw v, pyParseInt raw = some v →
      c.multipleOf ≠ some 0 → specIntConstraintsOk c v = false →
      (constrainedIntStep c raw).isValidationError = true) ∧
    (∀ (env : PathEnv) (fs : String → FsEntry) (extra : PathExtra) raw p,
      extra.mustExist = true → pathExpanduser env raw = .ok p →
      fs (pyResolve env p) = .missing →
      (pathHandle env fs extra raw none).isValidationError = true) := by
  refine ⟨?_, ?_, ?_⟩
  · intro raw d hp hd
    simp [intHandleStep, hd, hp, LoopStep.isValidationError]
  · intro c raw v hp hm hspec
    simp only [constrainedIntStep, hp]
    rcases constrainedIntCheck_cases c v hm with hret | hval
    · exact absurd ((constrainedIntCheck_ret_iff c v hm).mp hret)
        (by simp [hspec])
    · exact hval
  · intro env fs extra raw p hm hx hfs
    simp [pathHandle, pathHandleStep, pathHandleInner, hx, hm, hfs,
      Except.instMonad, Except.bind, LoopStep.isValidationError]

/-- C3, witness: `"abc"` to `IntHandler` (no default), `"-1"` against
`ge=0`, and a missing path under `must_exist` each raise
`ValidationError`. -/
theorem invalid_input_validation_error_witness :
    (intHandleStep "abc" none).isValidationError = true ∧
    (constrainedIntStep ⟨none, some 0, none, none, none⟩ "-1").isValidationError
        = true ∧
    (pathHandle ⟨"/home/user", "/work", []⟩ (fun _ => FsEntry.missing)
        ⟨true, false, false⟩ "nofile" none).isValidationError = true :=
  ⟨invalid_input_validation_error.1 "abc" none (by decide) (by decide),
   invalid_input_validation_error.2.1 ⟨none, some 0, none, none, none⟩ "-1" (-1)
     (by decide) (by decide) (by decide),
   invalid_input_validation_error.2.2 ⟨"/home/user", "/work", []⟩
     (fun _ => FsEntry.missing) ⟨true, false, false⟩ "nofile" "nofile"
     rfl rfl rfl⟩

/-- C6: the spec scenario — `min_length=1` rejects `""` and accepts
`"Ada"`, `ge=0` rejects `"-1"` and accepts `"36"` — and in general
`ConstrainedIntHandler` returns the parsed value `v` iff `v > gt`,
`v ≥ ge`, `v < lt`, `v ≤ le` and `v % multiple_of == 0` for each constraint
that is set (with a nonzero `multiple_of`). -/
theorem constrained_scenario :
    (constrainedStrStep ⟨some 1, none, none⟩ "").isValidationError = true ∧
    constrainedStrStep ⟨some 1, none, none⟩ "Ada" = .ret "Ada" ∧
    (constrainedIntStep ⟨none, some 0, none, none, none⟩ "-1").isValidationError
        = true ∧
    constrainedIntStep ⟨none, some 0, none, none, none⟩ "36" = .ret 36 ∧
    ∀ (c : IntConstraints) raw v, pyParseInt raw = some v →
      c.multipleOf ≠ some 0 →
      (constrainedIntStep c raw = .ret v ↔ specIntConstraintsOk c v = true) := by
  refine ⟨by decide, by decide, by decide, by decide, ?_⟩
  intro c raw v hp hm
  simp only [constrainedIntStep, hp]
  exact constrainedIntCheck_ret_iff c v hm

/-- C6, witness: the general equivalence instantiated at constraints
`gt=0, lt=100, multiple_of=6` and input `"36"`. -/
theorem constrained_scenario_witness :
    constrainedIntStep ⟨some 0, none, some 100, none, some 6⟩ "36" = .ret 36 ↔
      specIntConstraintsOk ⟨some 0, none, some 100, none, some 6⟩ 36 = true :=
  constrained_scenario.2.2.2.2 ⟨some 0, none, some 100, none, some 6⟩ "36" 36
    (by decide) (by decide)

/-- C8: `BoolHandler` maps input by case-insensitive, whitespace-stripped
comparison — the y/yes/true/1 forms return `True`, the n/no/false/0 forms
return `False`, any other non-empty input raises `ValidationError`, and so
does empty input with no default. -/
theorem bool_mapping :
    (∀ raw (d : Option Bool), pyLowerStrip raw ∈ boolTrueInputs →
      boolHandleStep raw d = .ret true) ∧
    (∀ raw (d : Option Bool), pyLowerStrip raw ∈ boolFalseInputs →
      boolHandleStep raw d = .ret false) ∧
    (∀ raw (d : Option Bool), raw ≠ "" →
      pyLowerStrip raw ∉ boolTrueInputs → pyLowerStrip raw ∉ boolFalseInputs →
      (boolHandleStep raw d).isValidationError = true) ∧
    (boolHandleStep "" none).isValidationError = true := by
  refine ⟨?_, ?_, ?_, by decide⟩
  · intro raw d h
    by_cases hr : raw = ""
    · subst hr
      exact absurd h (by decide)
    · have hb : (raw == "") = false := beq_eq_false_iff_ne.mpr hr
      simp [boolHandleStep, hb, h]
  · intro raw d h
    by_cases hr : raw = ""
    · subst hr
      exact absurd h (by decide)
    · have hb : (raw == "") = false := beq_eq_false_iff_ne.mpr hr
      have ht : pyLowerStrip raw ∉ boolTrueInputs := by
        simp only [boolFalseInputs, List.mem_cons, List.not_mem_nil,
          or_false] at h
        rcases h with h | h | h | h <;> rw [h] <;> decide
      simp [boolHandleStep, hb, h, ht]
  · intro raw d hr ht hf
    have hb : (raw == "") = false := beq_eq_false_iff_ne.mpr hr
    simp [boolHandleStep, hb, ht, hf, LoopStep.isValidationError]

/-- C8, witness: `"  YES "` maps to `True`. -/
theorem bool_mapping_witness : boolHandleStep "  YES " none = .ret true :=
  bool_mapping.1 "  YES " none (by decide)

/-- C10: with empty input and a default present, `EmailHandler` and
`URLHandler` validate the default against the applicable pattern (the
custom one when supplied, else the builtin): a non-matching default raises
`ValidationError`, a matching one is returned. -/
theorem email_url_default_validated :
    (∀ (cp : Option (String → Bool)) (d : String),
      ((cp.getD emailRegexMatch) d = false →
        (emailHandle cp "" (some d)).isValidationError = true) ∧
      ((cp.getD emailRegexMatch) d = true →
        emailHandle cp "" (some d) = .ret d)) ∧
    (∀ (cp : Option (String → Bool)) (d : String),
      ((cp.getD urlRegexMatch) d = false →
        (urlHandle cp "" (some d)).isValidationError = true) ∧
      ((cp.getD urlRegexMatch) d = true →
        urlHandle cp "" (some d) = .ret d)) := by
  constructor <;> intro cp d <;> constructor <;> intro h <;>
    simp [emailHandle, emailHandleStep, urlHandle, urlHandleStep, h,
      LoopStep.isValidationError]

/-- C10, witness: the builtin patterns accept `a@b.c` back as default and
reject `nope` as a URL default. -/
theorem email_url_default_validated_witness :
    emailHandle none "" (some "a@b.c") = .ret "a@b.c" ∧
      (urlHandle none "" (some "nope")).isValidationError = true :=
  ⟨(email_url_default_validated.1 none "a@b.c").2 (by decide),
   (email_url_default_validated.2 none "nope").1 (by decide)⟩

/-- C4, counterexample: `UUIDHandler.format_default` on the non-UUID string
`"xyz"` raises `ValueError` instead of treating the default as absent. -/
theorem format_default_counterexample :
    uuidFormatDefault (some (.pstr "xyz")) =
      .error (.valueError "badly formed hexadecimal UUID string") :=
  rfl

/-- C4, amended: `format_default` treats a `None` default as absent, but an
unformattable default makes it raise rather than render no default —
`ValueError` for a non-UUID string (`UUIDHandler`), `InvalidOperation` for
a non-numeric string (`DecimalHandler`), and `RuntimeError` for an
unexpandable `~user` path (`PathHandler`). -/
theorem format_default_amended :
    (uuidFormatDefault none = .ok none ∧ decimalFormatDefault none = .ok none ∧
      ∀ env : PathEnv, pathFormatDefault env none = .ok none) ∧
    (∀ s, pyParseUUID s = none →
      uuidFormatDefault (some (.pstr s)) =
        .error (.valueError "badly formed hexadecimal UUID string")) ∧
    (∀ s, pyDecimalAccepts s = false →
      decimalFormatDefault (some (.pstr s)) =
        .error (.invalidOperation "invalid decimal literal")) ∧
    (∀ (env : PathEnv) (s : String) (e : PyError),
      pathExpanduser env s = .error e →
      pathFormatDefault env (some (.pstr s)) = .error e) := by
  refine ⟨⟨rfl, rfl, fun env => rfl⟩, ?_, ?_, ?_⟩
  · intro s h
    simp [uuidFormatDefault, h]
  · intro s h
    simp [decimalFormatDefault, pyStr, h]
  · intro env s e h
    simp [pathFormatDefault, h, Except.map]

/-- C4, witness for the amended theorem: `Decimal("abc")` fails, so
`DecimalHandler.format_default` raises `InvalidOperation` on `"abc"`. -/
theorem format_default_amended_witness :
    decimalFormatDefault (some (.pstr "abc")) =
      .error (.invalidOperation "invalid decimal literal") :=
  format_default_amended.2.2.1 "abc" (by decide)

end Promptantic
